import Mathlib

/-!
# Verification of the gitlab-xsearch core (shallow embedding)

This file embeds the data model and the core algorithms of the
`gitlab-xsearch` tool — the result mapper (`src/models.rs`), the client
construction, repository paginator and per-repository search retry loop
(`src/client.rs`), and the fan-out aggregation (`src/main.rs`) — as
executable Lean definitions, and proves the specified properties about
them.

Modelling conventions:
* Rust `u64` values are modelled as `Nat` (none of the verified
  properties involve wrap-around arithmetic).
* HTTP responses are modelled as plain records; a loop that issues one
  request per iteration consumes one element of a response list given in
  arrival order.
* Network sleeps and request counts are made observable by returning a
  trace (list of computed wait durations, number of requests issued).
-/

namespace GitlabXsearch

/-! ## Data model (src/models.rs) -/

/-- `Project` from `src/models.rs`: one GitLab project as returned by the
listing endpoint. -/
structure Project where
  id : Nat
  name : String
  path_with_namespace : String
  web_url : String
  http_url_to_repo : String
  path : String
  deriving DecidableEq, Repr

/-- `GitLabBlobResult` from `src/models.rs`: one blob-search hit. -/
structure GitLabBlobResult where
  filename : String
  startline : Option Nat
  project_id : Nat
  data : String
  deriving DecidableEq, Repr

/-- `SearchResultRow` from `src/models.rs`: the flattened output row. -/
structure SearchResultRow where
  group_path : String
  project_name : String
  project_id : Nat
  file_name : String
  line_number : Nat
  snippet : String
  clone_url : String
  project_folder : String
  deriving DecidableEq, Repr

deriving instance DecidableEq for Except

/-- `SearchResultRow::from_api_result` (src/models.rs lines 38-54): derive an
output row from a project and one of its blob matches.  Rust's
`split('/').next().unwrap_or("")` yields the prefix of the string before the
first `/` (the whole string when there is none; `split` always yields at
least one item, so the `unwrap_or("")` fallback is dead and the result on
the empty string is `""`), i.e. `takeWhile (· ≠ '/')` on the characters. -/
def SearchResultRow.from_api_result (project : Project) (blob : GitLabBlobResult) :
    SearchResultRow :=
  { group_path := String.mk (project.path_with_namespace.data.takeWhile fun c => c ≠ '/')
    project_name := project.name
    project_id := project.id
    file_name := blob.filename
    line_number := blob.startline.getD 0
    snippet := blob.data
    clone_url := project.http_url_to_repo
    project_folder := project.path }

/-! ## Client construction (src/client.rs, `GitLabClient::new`)

URL strings are modelled as `List Char` so that suffix reasoning is
available; Rust's `str::ends_with` is `List.isSuffixOf` and
`String::pop` (removing the final character) is `List.dropLast`. -/

/-- The default base URL literal from `GitLabClient::new`. -/
def defaultBaseUrl : List Char := "https://gitlab.com/api/v4".data

/-- The API-version path segment appended by `GitLabClient::new`. -/
def apiV4 : List Char := "/api/v4".data

/-- The trailing-slash strip in `GitLabClient::new` (src/client.rs lines
24-26): `if base_url.ends_with('/') { base_url.pop(); }`. -/
def stripTrailingSlash (b : List Char) : List Char :=
  if ['/'].isSuffixOf b then b.dropLast else b

/-- The endpoint normalization performed by `GitLabClient::new`
(src/client.rs lines 22-31): default the URL, drop one trailing `/`,
then append `/api/v4` unless the string already ends with it. -/
def normalizeBaseUrl (base_url : Option (List Char)) : List Char :=
  let b1 := stripTrailingSlash (base_url.getD defaultBaseUrl)
  if apiV4.isSuffixOf b1 then b1 else b1 ++ apiV4

/-! ## Per-repository search (src/client.rs, `GitLabClient::search_in_project`) -/

/-- Rust's `str::parse::<u64>`: an optional leading `+` sign followed by one
or more ASCII digits, with the value required to fit in 64 bits. -/
def parseU64 (s : String) : Option Nat :=
  let ds := match s.data with
    | '+' :: rest => rest
    | cs => cs
  if ds.isEmpty then none
  else if ds.all Char.isDigit then
    let v := ds.foldl (fun acc c => acc * 10 + (c.toNat - '0'.toNat)) 0
    if v < 2 ^ 64 then some v else none
  else none

/-- `StatusCode::is_success` from reqwest: HTTP status in `200..=299`. -/
def statusIsSuccess (status : Nat) : Bool :=
  200 ≤ status && status < 300

/-- One HTTP response to a `/projects/{id}/search` request, as
`search_in_project` observes it: the status code, the `retry-after`
header when present, and the parse of the body as a match list
(`none` = the body failed to parse). -/
structure SearchResponse where
  status : Nat
  retry_after : Option String
  body : Option (List GitLabBlobResult)
  deriving DecidableEq, Repr

/-- The wait-duration computation in `search_in_project`'s 429 branch
(src/client.rs lines 135-144): prefer the `retry-after` header, defaulting
to 1 second when it does not parse (`to_str().unwrap_or("1").parse::<u64>()
.unwrap_or(1)`); with no header, exponential backoff `2^retry_count`.
(A header value is modelled as a `String`, so the `to_str()` byte-validity
fallback is absorbed into the parse fallback.) -/
def computeWait (retry_after : Option String) (retry_count : Nat) : Nat :=
  match retry_after with
  | some h => (parseU64 h).getD 1
  | none => 2 ^ retry_count

/-- The observable outcome of one `search_in_project` call: the returned
value or error, the sleep durations performed (in order), and the number
of HTTP requests issued. -/
structure SearchOutcome where
  result : Except String (List GitLabBlobResult)
  waits : List Nat
  requests : Nat
  deriving Repr

/-- The retry loop of `search_in_project` (src/client.rs lines 118-168),
consuming one response per request from an arrival-ordered list.  On 429:
fail with "Max retries exceeded" once `retry_count` reaches `max_retries`,
otherwise sleep `computeWait` seconds, increment the counter and retry.
On any other non-success status: fail immediately naming the project and
status.  On success: return the parsed body.  An exhausted response list
models a transport error from `send().await?`. -/
def searchGo (project_id : Nat) (max_retries : Nat) :
    List SearchResponse → Nat → SearchOutcome
  | [], _ =>
    { result := Except.error "request error", waits := [], requests := 0 }
  | r :: rest, retry_count =>
    if r.status = 429 then
      if max_retries ≤ retry_count then
        { result := Except.error
            ("Max retries exceeded for project " ++ toString project_id ++
              ": 429 Too Many Requests")
          waits := []
          requests := 1 }
      else
        let wait_time := computeWait r.retry_after retry_count
        let next := searchGo project_id max_retries rest (retry_count + 1)
        { result := next.result
          waits := wait_time :: next.waits
          requests := next.requests + 1 }
    else if statusIsSuccess r.status then
      match r.body with
      | some results =>
        { result := Except.ok results, waits := [], requests := 1 }
      | none =>
        { result := Except.error "failed to parse search response JSON"
          waits := []
          requests := 1 }
    else
      { result := Except.error
          ("Search failed for project " ++ toString project_id ++ ": " ++
            toString r.status)
        waits := []
        requests := 1 }

/-- `GitLabClient::search_in_project` (src/client.rs lines 109-169): the
retry loop started with `retry_count = 0` and `max_retries = 5`. -/
def search_in_project (project_id : Nat) (responses : List SearchResponse) :
    SearchOutcome :=
  searchGo project_id 5 responses 0

/-! ## Repository paginator (src/client.rs, `GitLabClient::get_projects`) -/

/-- One HTTP response to a project-listing request, as `get_projects`
observes it: whether the status is a success, the raw `x-next-page`
header (`none` = absent), and the parse of the body as a project list
(`none` = the body failed to parse). -/
structure PageResponse where
  status_success : Bool
  x_next_page : Option String
  body : Option (List Project)
  deriving DecidableEq, Repr

/-- The pagination loop of `get_projects` (src/client.rs lines 54-103),
consuming one response per request from an arrival-ordered list, with the
accumulated `projects` vector threaded through.  A non-success status or
an unparsable body aborts the listing; an empty page breaks out of the
loop; otherwise the page is appended and the loop continues exactly when
a non-empty `x-next-page` header is present.  (The `page` counter only
selects the URL of the next request, which the arrival-ordered response
list already fixes, so it is not tracked.)  An exhausted response list
models a transport error from `send().await?`. -/
def getProjectsLoop (projects : List Project) :
    List PageResponse → Except String (List Project)
  | [] => Except.error "request error"
  | r :: rest =>
    if r.status_success then
      let next_page := (r.x_next_page.filter fun s => !s.isEmpty)
      match r.body with
      | none => Except.error "Failed to parse projects JSON"
      | some page_projects =>
        if page_projects.isEmpty then Except.ok projects
        else
          match next_page with
          | some _ => getProjectsLoop (projects ++ page_projects) rest
          | none => Except.ok (projects ++ page_projects)
    else
      Except.error "Failed to fetch projects"

/-- `GitLabClient::get_projects` (src/client.rs lines 41-106): the
pagination loop started with an empty accumulator. -/
def get_projects (responses : List PageResponse) : Except String (List Project) :=
  getProjectsLoop [] responses

/-! ## Fan-out aggregation (src/main.rs, `main`, lines 106-148) -/

/-- The per-task body from `main` (src/main.rs lines 111-128): a completed
search task yields `some rows` when the search succeeded with a non-empty
match list, and `none` on an empty match list, a search error, or a task
join error (both error cases are modelled by `Except.error`). -/
def taskRows (p : Project) (res : Except String (List GitLabBlobResult)) :
    Option (List SearchResultRow) :=
  match res with
  | Except.ok results =>
    if results.isEmpty then none
    else some (results.map fun r => SearchResultRow.from_api_result p r)
  | Except.error _ => none

/-- The aggregation in `main` (src/main.rs lines 134-148): completed tasks,
in completion order, are filtered through `taskRows` and flattened into
one row list. -/
def aggregateRows (completed : List (Project × Except String (List GitLabBlobResult))) :
    List SearchResultRow :=
  (completed.filterMap fun pr => taskRows pr.1 pr.2).flatten

/-- Modelled from the spec: the multiset of rows one repository is
specified to contribute — its matches mapped through the result mapper
when its search succeeded, nothing when it failed. -/
def specContribution (pr : Project × Except String (List GitLabBlobResult)) :
    Multiset SearchResultRow :=
  match pr.2 with
  | Except.ok results =>
    (results.map fun r => SearchResultRow.from_api_result pr.1 r : List SearchResultRow)
  | Except.error _ => 0

/-! ## Bounded-concurrency fan-out (src/main.rs, `buffer_unordered`) -/

/-- `CONCURRENT_REQUESTS` from `main` (src/main.rs line 97). -/
def CONCURRENT_REQUESTS : Nat := 5

/-- A state of the fan-out driver: repositories not yet dispatched (in
listing order), searches currently in flight, and completed searches. -/
structure FanOutState where
  pending : List Project
  inFlight : List Project
  done : List Project
  deriving Repr

/-- The initial fan-out state for a project list: nothing dispatched. -/
def FanOutState.init (projects : List Project) : FanOutState :=
  { pending := projects, inFlight := [], done := [] }

/-- The two moves of `buffer_unordered CONCURRENT_REQUESTS` over the
spawned search tasks (src/main.rs lines 106-131): dispatch the next
pending repository while strictly fewer than `CONCURRENT_REQUESTS`
searches are in flight, and complete any in-flight search (searches
finish in arbitrary order). -/
inductive FanOutStep : FanOutState → FanOutState → Prop
  | dispatch (p : Project) (pending inFlight done : List Project)
      (hcap : inFlight.length < CONCURRENT_REQUESTS) :
      FanOutStep ⟨p :: pending, inFlight, done⟩ ⟨pending, p :: inFlight, done⟩
  | complete (p : Project) (pending l₁ l₂ done : List Project) :
      FanOutStep ⟨pending, l₁ ++ p :: l₂, done⟩ ⟨pending, l₁ ++ l₂, p :: done⟩

/-- A fan-out state reachable from the initial state of a project list. -/
def FanOutReachable (projects : List Project) (s : FanOutState) : Prop :=
  Relation.ReflTransGen FanOutStep (FanOutState.init projects) s

/-! ## Theorems -/

/-- A list with the suffix `/api/v4` does not end in a slash: its last
character is `'4'`. -/
theorem not_slash_suffix_of_apiV4_suffix {l : List Char} (h : apiV4 <:+ l) :
    ¬ ['/'] <:+ l := by
  rintro ⟨t, ht⟩
  obtain ⟨u, hu⟩ := h
  have h1 : l.getLast? = some '/' := by
    rw [← ht]; exact List.getLast?_concat t
  have h2 : l.getLast? = some '4' := by
    rw [← hu, List.getLast?_append]
    rfl
  rw [h1] at h2
  exact absurd (Option.some.inj h2) (by decide)

/-- C7: `from_api_result` derives the row fields as specified: the group is
the first `/`-separated segment of the repository's namespaced path, the
line number defaults to 0 when the match has none, the remaining fields are
copied unchanged, the mapping is deterministic, and the spec's concrete
example row is produced. -/
theorem from_api_result_row_derivation (p : Project) (b : GitLabBlobResult) :
    (SearchResultRow.from_api_result p b).group_path
        = String.mk (p.path_with_namespace.data.takeWhile fun c => c ≠ '/')
      ∧ (SearchResultRow.from_api_result p b).line_number = b.startline.getD 0
      ∧ (SearchResultRow.from_api_result p b).project_name = p.name
      ∧ (SearchResultRow.from_api_result p b).project_id = p.id
      ∧ (SearchResultRow.from_api_result p b).file_name = b.filename
      ∧ (SearchResultRow.from_api_result p b).snippet = b.data
      ∧ (SearchResultRow.from_api_result p b).clone_url = p.http_url_to_repo
      ∧ (SearchResultRow.from_api_result p b).project_folder = p.path
      ∧ SearchResultRow.from_api_result p b = SearchResultRow.from_api_result p b
      ∧ SearchResultRow.from_api_result
          { id := 123, name := "Test Project",
            path_with_namespace := "my-group/subgroup/test-project",
            web_url := "https://gitlab.com/my-group/subgroup/test-project",
            http_url_to_repo := "https://gitlab.com/my-group/subgroup/test-project.git",
            path := "test-project" }
          { filename := "src/main.rs", startline := some 10, project_id := 123,
            data := "fn main() \x7b\x7d" }
          = { group_path := "my-group", project_name := "Test Project",
              project_id := 123, file_name := "src/main.rs", line_number := 10,
              snippet := "fn main() \x7b\x7d",
              clone_url := "https://gitlab.com/my-group/subgroup/test-project.git",
              project_folder := "test-project" } :=
  ⟨rfl, rfl, rfl, rfl, rfl, rfl, rfl, rfl, rfl, by decide⟩

/-- C10: the derived row's project id is the searched repository's id; the
match's own `project_id` field is never read, so changing it does not change
the derived row. -/
theorem from_api_result_project_id_from_repository (p : Project) (b : GitLabBlobResult) :
    (SearchResultRow.from_api_result p b).project_id = p.id
      ∧ ∀ n : Nat,
          SearchResultRow.from_api_result p { b with project_id := n }
            = SearchResultRow.from_api_result p b :=
  ⟨rfl, fun _ => rfl⟩

/-- C8: client construction strips a trailing slash, appends `/api/v4`
exactly when the slash-stripped string does not already end with it, and the
normalized endpoint therefore always ends with `/api/v4` and never with a
slash. -/
theorem normalizeBaseUrl_endpoint_shape (base_url : Option (List Char)) :
    normalizeBaseUrl base_url
        = stripTrailingSlash (base_url.getD defaultBaseUrl)
            ++ (if apiV4.isSuffixOf (stripTrailingSlash (base_url.getD defaultBaseUrl))
                then [] else apiV4)
      ∧ apiV4 <:+ normalizeBaseUrl base_url
      ∧ ¬ ['/'] <:+ normalizeBaseUrl base_url := by
  have hshape : normalizeBaseUrl base_url
      = stripTrailingSlash (base_url.getD defaultBaseUrl)
          ++ (if apiV4.isSuffixOf (stripTrailingSlash (base_url.getD defaultBaseUrl))
              then [] else apiV4) := by
    by_cases h : apiV4.isSuffixOf (stripTrailingSlash (base_url.getD defaultBaseUrl))
    · simp [normalizeBaseUrl, h]
    · simp [normalizeBaseUrl, h]
  have hsuffix : apiV4 <:+ normalizeBaseUrl base_url := by
    rw [hshape]
    by_cases h : apiV4.isSuffixOf (stripTrailingSlash (base_url.getD defaultBaseUrl))
    · simp only [h, if_true, List.append_nil]
      exact List.isSuffixOf_iff_suffix.mp h
    · simp only [h, if_false, Bool.false_eq_true]
      exact List.suffix_append _ _
  exact ⟨hshape, hsuffix, not_slash_suffix_of_apiV4_suffix hsuffix⟩

/-- C3: a 429 response carrying a parseable `retry-after` header with value
`n` makes the searcher wait exactly `n` seconds before the next attempt,
whatever the current retry counter is (a wait happens whenever the counter
has not yet reached the maximum of 5). -/
theorem search_in_project_retry_after_honored (project_id : Nat) (r : SearchResponse)
    (rest : List SearchResponse) (retry_count n : Nat) (s : String)
    (h429 : r.status = 429) (hrc : retry_count < 5)
    (hdr : r.retry_after = some s) (hn : parseU64 s = some n) :
    (searchGo project_id 5 (r :: rest) retry_count).waits
      = n :: (searchGo project_id 5 rest (retry_count + 1)).waits := by
  simp [searchGo, h429, Nat.not_le.mpr hrc, computeWait, hdr, hn]

/-- Witness for C3: a 429 with `retry-after: 3` causes exactly a 3-second
wait, here on the very first attempt. -/
theorem search_in_project_retry_after_honored_witness :
    (searchGo 7 5 [{ status := 429, retry_after := some "3", body := none }] 0).waits
      = 3 :: (searchGo 7 5 [] 1).waits :=
  search_in_project_retry_after_honored 7
    { status := 429, retry_after := some "3", body := none } [] 0 3 "3"
    rfl (by decide) rfl (by decide)

/-- C4 (amended): a 429 response with no `retry-after` header at all makes
the searcher wait exactly `2 ^ retry_count` seconds before the next attempt
(for a header that is present but unparseable the wait is the parse fallback
of 1 second instead — see the counterexample). -/
theorem search_in_project_backoff_on_absent_header (project_id : Nat)
    (r : SearchResponse) (rest : List SearchResponse) (retry_count : Nat)
    (h429 : r.status = 429) (hrc : retry_count < 5) (hdr : r.retry_after = none) :
    (searchGo project_id 5 (r :: rest) retry_count).waits
      = 2 ^ retry_count :: (searchGo project_id 5 rest (retry_count + 1)).waits := by
  simp [searchGo, h429, Nat.not_le.mpr hrc, computeWait, hdr]

/-- Witness for C4 (amended): with no `retry-after` header, the attempt with
zero-based counter 2 waits `2 ^ 2 = 4` seconds. -/
theorem search_in_project_backoff_on_absent_header_witness :
    (searchGo 7 5 [{ status := 429, retry_after := none, body := none }] 2).waits
      = 4 :: (searchGo 7 5 [] 3).waits :=
  search_in_project_backoff_on_absent_header 7
    { status := 429, retry_after := none, body := none } [] 2
    rfl (by decide) rfl

/-- Counterexample to C4 as stated: three 429 responses whose `retry-after`
header is present but unparseable (`"three"`) produce waits of 1 second
each; in particular the third attempt (zero-based index 2) waits 1 second,
not the claimed `2 ^ 2 = 4`. -/
theorem search_in_project_unparseable_header_waits_one :
    (search_in_project 7
        [{ status := 429, retry_after := some "three", body := none },
         { status := 429, retry_after := some "three", body := none },
         { status := 429, retry_after := some "three", body := none },
         { status := 200, retry_after := none, body := some [] }]).waits
      = [1, 1, 1] ∧ (1 : Nat) ≠ 2 ^ 2 := by
  constructor
  · decide
  · decide

/-- C5: a repository answering 429 on all 6 consecutive attempts fails with
the "Max retries exceeded" error naming that repository, after issuing
exactly 6 requests — no further requests are made even when more responses
would be available. -/
theorem search_in_project_max_retries_exceeded (project_id : Nat)
    (r0 r1 r2 r3 r4 r5 : SearchResponse) (rest : List SearchResponse)
    (h0 : r0.status = 429) (h1 : r1.status = 429) (h2 : r2.status = 429)
    (h3 : r3.status = 429) (h4 : r4.status = 429) (h5 : r5.status = 429) :
    (search_in_project project_id (r0 :: r1 :: r2 :: r3 :: r4 :: r5 :: rest)).result
        = Except.error ("Max retries exceeded for project " ++ toString project_id ++
            ": 429 Too Many Requests")
      ∧ (search_in_project project_id (r0 :: r1 :: r2 :: r3 :: r4 :: r5 :: rest)).requests
          = 6 := by
  simp [search_in_project, searchGo, h0, h1, h2, h3, h4, h5]

/-- Witness for C5: six straight 429 responses exhaust the retries with 6
requests, even though a seventh (successful) response was available. -/
theorem search_in_project_max_retries_exceeded_witness :
    (search_in_project 7
        (List.replicate 6 (⟨429, none, none⟩ : SearchResponse)
          ++ [{ status := 200, retry_after := none, body := some [] }])).result
        = Except.error ("Max retries exceeded for project " ++ toString 7 ++
            ": 429 Too Many Requests")
      ∧ (search_in_project 7
          (List.replicate 6 (⟨429, none, none⟩ : SearchResponse)
            ++ [{ status := 200, retry_after := none, body := some [] }])).requests
          = 6 :=
  search_in_project_max_retries_exceeded 7 _ _ _ _ _ _
    [{ status := 200, retry_after := none, body := some [] }]
    rfl rfl rfl rfl rfl rfl

/-- C6: a non-success, non-429 response makes the search fail at once with
an error naming the repository and the status: one single request, no wait,
no retry, for every value of the retry counter. -/
theorem search_in_project_non429_fails_immediately (project_id retry_count : Nat)
    (r : SearchResponse) (rest : List SearchResponse)
    (hne : r.status ≠ 429) (hns : statusIsSuccess r.status = false) :
    searchGo project_id 5 (r :: rest) retry_count
      = { result := Except.error ("Search failed for project " ++
            toString project_id ++ ": " ++ toString r.status),
          waits := [], requests := 1 } := by
  simp [searchGo, hne, hns]

/-- Witness for C6: a 403 response fails immediately with one request. -/
theorem search_in_project_non429_fails_immediately_witness :
    searchGo 7 5
        [{ status := 403, retry_after := none, body := none },
         { status := 200, retry_after := none, body := some [] }] 0
      = { result := Except.error ("Search failed for project " ++ toString 7 ++
            ": " ++ toString 403),
          waits := [], requests := 1 } :=
  search_in_project_non429_fails_immediately 7 0
    { status := 403, retry_after := none, body := none }
    [{ status := 200, retry_after := none, body := some [] }]
    (by decide) (by decide)

/-- The pagination loop on a response sequence whose final element is the
only terminating page: with any accumulator, it returns the accumulator
followed by the concatenation of all page bodies in arrival order. -/
theorem getProjectsLoop_ok (init : List PageResponse) (last : PageResponse)
    (hinit : ∀ r ∈ init, r.status_success = true ∧ r.body.isSome
      ∧ r.body ≠ some [] ∧ (r.x_next_page.filter fun s => !s.isEmpty).isSome)
    (hlast : last.status_success = true ∧ last.body.isSome
      ∧ (last.body = some []
          ∨ (last.x_next_page.filter fun s => !s.isEmpty) = none))
    (acc : List Project) :
    getProjectsLoop acc (init ++ [last])
      = Except.ok (acc ++ ((init ++ [last]).filterMap fun r => r.body).flatten) := by
  induction init generalizing acc with
  | nil =>
    obtain ⟨hs, hbody, hterm⟩ := hlast
    obtain ⟨ps, hps⟩ := Option.isSome_iff_exists.mp hbody
    rcases hterm with hb | hnp
    · rw [hb] at hps
      simp [getProjectsLoop, hs, hb]
    · by_cases hemp : ps.isEmpty
      · have : ps = [] := List.isEmpty_iff.mp hemp
        subst this
        simp [getProjectsLoop, hs, hps]
      · simp [getProjectsLoop, hs, hps, hemp, hnp]
  | cons r init ih =>
    obtain ⟨hs, hbody, hne, hnp⟩ := hinit r (List.mem_cons_self r init)
    obtain ⟨ps, hps⟩ := Option.isSome_iff_exists.mp hbody
    obtain ⟨s, hsf⟩ := Option.isSome_iff_exists.mp hnp
    have hpsne : ps ≠ [] := fun h => hne (by rw [hps, h])
    have hemp : ps.isEmpty = false := by
      cases ps with
      | nil => exact absurd rfl hpsne
      | cons a t => rfl
    have ih' := ih (fun q hq => hinit q (List.mem_cons_of_mem r hq)) (acc ++ ps)
    have hstep : getProjectsLoop acc ((r :: init) ++ [last])
        = getProjectsLoop (acc ++ ps) (init ++ [last]) := by
      simp [getProjectsLoop, hs, hps, hemp, hsf]
    rw [hstep, ih']
    simp [hps, List.append_assoc]

/-- C2: on any response sequence of successful, parseable pages whose last
page is empty or lacks a (non-empty) next-page indicator — every earlier
page being non-empty and carrying an indicator — `get_projects` terminates
with exactly the concatenation of the page bodies in arrival order; in
particular an empty final page terminates pagination even when its
next-page indicator is present. -/
theorem get_projects_pagination (init : List PageResponse) (last : PageResponse)
    (hinit : ∀ r ∈ init, r.status_success = true ∧ r.body.isSome
      ∧ r.body ≠ some [] ∧ (r.x_next_page.filter fun s => !s.isEmpty).isSome)
    (hlast : last.status_success = true ∧ last.body.isSome
      ∧ (last.body = some []
          ∨ (last.x_next_page.filter fun s => !s.isEmpty) = none)) :
    get_projects (init ++ [last])
      = Except.ok (((init ++ [last]).filterMap fun r => r.body).flatten) :=
  getProjectsLoop_ok init last hinit hlast []

/-- A sample repository record used to instantiate the theorems on
concrete inputs. -/
def sampleProject : Project :=
  { id := 123, name := "Test Project",
    path_with_namespace := "my-group/subgroup/test-project",
    web_url := "https://gitlab.com/my-group/subgroup/test-project",
    http_url_to_repo := "https://gitlab.com/my-group/subgroup/test-project.git",
    path := "test-project" }

/-- Witness for C2: one non-empty page pointing at page 2, then an empty
page that still carries a next-page indicator — pagination stops and
returns exactly the first page's single project. -/
theorem get_projects_pagination_witness :
    get_projects
        ([(⟨true, some "2", some [sampleProject]⟩ : PageResponse)]
          ++ [(⟨true, some "3", some []⟩ : PageResponse)])
      = Except.ok
          ((([(⟨true, some "2", some [sampleProject]⟩ : PageResponse)]
              ++ [(⟨true, some "3", some []⟩ : PageResponse)]).filterMap
            fun r => r.body).flatten) :=
  get_projects_pagination
    [(⟨true, some "2", some [sampleProject]⟩ : PageResponse)]
    (⟨true, some "3", some []⟩ : PageResponse)
    (by decide) (by decide)

/-- The rows of one completed task, as a list: the spec contribution of a
task is the multiset of exactly those rows. -/
theorem taskRows_getD_eq_specContribution
    (pr : Project × Except String (List GitLabBlobResult)) :
    ((taskRows pr.1 pr.2).getD [] : Multiset SearchResultRow) = specContribution pr := by
  cases h2 : pr.2 with
  | ok results =>
    cases results with
    | nil => simp [taskRows, specContribution, h2]
    | cons a t2 => simp [taskRows, specContribution, h2]
  | error e => simp [taskRows, specContribution, h2]

/-- The aggregate of a completed-task list is, as a multiset, the sum of
each task's spec contribution. -/
theorem aggregateRows_eq_sum
    (l : List (Project × Except String (List GitLabBlobResult))) :
    (aggregateRows l : Multiset SearchResultRow) = (l.map specContribution).sum := by
  induction l with
  | nil => rfl
  | cons pr t ih =>
    have hflat : aggregateRows (pr :: t)
        = (taskRows pr.1 pr.2).getD [] ++ aggregateRows t := by
      cases h : taskRows pr.1 pr.2 <;>
        simp [aggregateRows, List.filterMap_cons, h]
    rw [List.map_cons, List.sum_cons, hflat, ← Multiset.coe_add,
      taskRows_getD_eq_specContribution, ih]

/-- C1: whatever order the searches complete in (any permutation of the
dispatched repository/outcome pairs), the multiset of aggregated rows is
exactly the union over the successfully searched repositories of their
matches mapped through the result mapper; failed searches (including task
join errors) contribute zero rows, and the aggregation still produces the
other repositories' rows. -/
theorem aggregate_multiset_invariant
    (dispatched completed : List (Project × Except String (List GitLabBlobResult)))
    (hperm : completed.Perm dispatched) :
    (aggregateRows completed : Multiset SearchResultRow)
      = (dispatched.map specContribution).sum := by
  rw [aggregateRows_eq_sum]
  exact (hperm.map specContribution).sum_eq

/-- A second sample repository, distinct from `sampleProject`. -/
def numberedProject (n : Nat) : Project :=
  { sampleProject with id := n, name := "Project " ++ toString n }

/-- A sample blob match used to instantiate the theorems. -/
def sampleBlob : GitLabBlobResult :=
  { filename := "src/main.rs", startline := some 10, project_id := 123,
    data := "fn main() \x7b\x7d" }

/-- Witness for C1: three repositories — one succeeding with a match, one
failing, one succeeding with no matches — completing in reverse dispatch
order still aggregate to exactly the successful repositories'
contributions. -/
theorem aggregate_multiset_invariant_witness :
    (aggregateRows
        [(numberedProject 3, Except.ok []),
         (numberedProject 2, Except.error "Search failed for project 2: 403"),
         (numberedProject 1, Except.ok [sampleBlob])]
      : Multiset SearchResultRow)
      = (([(numberedProject 1, Except.ok [sampleBlob]),
           (numberedProject 2, Except.error "Search failed for project 2: 403"),
           (numberedProject 3, Except.ok ([] : List GitLabBlobResult))].map
            specContribution).sum) :=
  aggregate_multiset_invariant
    [(numberedProject 1, Except.ok [sampleBlob]),
     (numberedProject 2, Except.error "Search failed for project 2: 403"),
     (numberedProject 3, Except.ok [])]
    [(numberedProject 3, Except.ok []),
     (numberedProject 2, Except.error "Search failed for project 2: 403"),
     (numberedProject 1, Except.ok [sampleBlob])]
    (by decide)

/-- C9: in every state reachable by the bounded fan-out, at most
`CONCURRENT_REQUESTS = 5` searches are in flight, and the pending,
in-flight and completed repositories together are a permutation of the
dispatched sequence — so every repository is dispatched exactly once
(it sits in exactly one of the three phases, with its original
multiplicity, at every point of the run). -/
theorem fanout_concurrency_cap (projects : List Project) (s : FanOutState)
    (_hN : 5 < projects.length) (hreach : FanOutReachable projects s) :
    s.inFlight.length ≤ CONCURRENT_REQUESTS
      ∧ (s.pending ++ s.inFlight ++ s.done).Perm projects := by
  induction hreach with
  | refl =>
    refine ⟨?_, ?_⟩
    · simp [FanOutState.init, CONCURRENT_REQUESTS]
    · simp [FanOutState.init]
  | tail hab hbc ih =>
    obtain ⟨ihcap, ihperm⟩ := ih
    cases hbc with
    | dispatch p pending inFlight done hcap =>
      refine ⟨?_, ?_⟩
      · simpa [List.length_cons] using hcap
      · refine List.Perm.trans ?_ ihperm
        rw [List.perm_iff_count]
        intro a
        simp only [List.count_append, List.count_cons]
        ring
    | complete p pending l₁ l₂ done =>
      refine ⟨?_, ?_⟩
      · simp only [List.length_append] at ihcap ⊢
        simp only [List.length_cons] at ihcap
        omega
      · refine List.Perm.trans ?_ ihperm
        rw [List.perm_iff_count]
        intro a
        simp only [List.count_append, List.count_cons]
        ring

/-- Witness for C9: six repositories, one dispatch step taken — the
reachable state has one search in flight (within the cap) and conserves
the repository multiset. -/
theorem fanout_concurrency_cap_witness :
    (FanOutState.mk
        [numberedProject 2, numberedProject 3, numberedProject 4,
         numberedProject 5, numberedProject 6]
        [numberedProject 1] []).inFlight.length ≤ CONCURRENT_REQUESTS
      ∧ ((FanOutState.mk
            [numberedProject 2, numberedProject 3, numberedProject 4,
             numberedProject 5, numberedProject 6]
            [numberedProject 1] []).pending
          ++ (FanOutState.mk
                [numberedProject 2, numberedProject 3, numberedProject 4,
                 numberedProject 5, numberedProject 6]
                [numberedProject 1] []).inFlight
          ++ (FanOutState.mk
                [numberedProject 2, numberedProject 3, numberedProject 4,
                 numberedProject 5, numberedProject 6]
                [numberedProject 1] []).done).Perm
          [numberedProject 1, numberedProject 2, numberedProject 3,
           numberedProject 4, numberedProject 5, numberedProject 6] :=
  fanout_concurrency_cap
    [numberedProject 1, numberedProject 2, numberedProject 3,
     numberedProject 4, numberedProject 5, numberedProject 6]
    (FanOutState.mk
      [numberedProject 2, numberedProject 3, numberedProject 4,
       numberedProject 5, numberedProject 6]
      [numberedProject 1] [])
    (by decide)
    (Relation.ReflTransGen.single
      (FanOutStep.dispatch (numberedProject 1)
        [numberedProject 2, numberedProject 3, numberedProject 4,
         numberedProject 5, numberedProject 6]
        [] [] (by decide)))

end GitlabXsearch
